import Mathlib

/-!
Verification development for the `solid-fsm` TypeScript finite-state-machine
library.  The engine (`StateMachine.ts`), the per-state configuration
(`StateConfiguration.ts`) and the per-trigger configuration
(`TriggerConfiguration.ts`) are embedded shallowly below.

Modelling conventions, fixed once for the whole file:

* `TState` and `TTrigger` are opaque type parameters `S` and `T`.  The source
  tests use string enums, whose values are never falsy, so the source idioms
  `!trigger` (after `triggerList.shift()`) and `this._context?.state` are read
  as emptiness/absence checks and rendered with `Option`.
* The context is a record with the engine-managed `state` field (`Option S`,
  `undefined` = `none`) and an opaque domain part `D`.
* Handlers (`entering`/`exiting`) and `execute` actions are asynchronous
  callbacks; they may mutate the context, emit domain-visible events (type
  `E`, e.g. the log strings of the test suite) and call the state machine's
  bound `trigger` function.  A callback is modelled as a pure function
  `Ctx → Ctx × List T × List E`: the updated context, the triggers it passes
  to `trigger` (fired, in order, when the callback finishes its own effects)
  and the events it emits.  Listeners are modelled as observations recorded in
  the trace (`Obs.transition`, `Obs.invalid`) when the listener is installed.
* JavaScript exceptions are modelled by an `error` field in the outcome; all
  mutations performed before the throw are kept, exactly as in the source.
* `_targetStateConfiguration` is an object reference produced by
  `goesTo → stateMachine.state(target)`, which is the entry of
  `stateConfigurationMap` for the target identifier; the model stores the
  identifier and dereferences through `stateMap`, so a missing entry
  (unreachable for configurations built through the fluent API) is reported
  as `EngError.misconfiguredTarget`.
* The single recursive interpreter `run` is total via a fuel parameter; fuel
  exhaustion is the distinguished outcome `EngError.outOfFuel`, which no real
  execution of the source exhibits and which every theorem below treats as
  "ran out of fuel", never as source behaviour.
-/

namespace SolidFsm

/-- The state machine context (`StateMachineContext.ts`): the engine-managed
current-state field plus opaque domain data read and written by guards,
handlers and actions. -/
structure Ctx (S D : Type) where
  state : Option S
  data : D
deriving DecidableEq

/-- `TriggerConfiguration.ts`: optional guard, and the write-once effect
fields `_targetStateConfiguration` (stored as the target identifier),
`_func`, `_isIgnored`. -/
structure TriggerConfiguration (S T D E : Type) where
  guard : Option (Ctx S D → Bool)
  target : Option S
  func : Option (Ctx S D → Ctx S D × List T × List E)
  isIgnored : Bool

/-- A state's entry/exit handler (`StateHandler.ts`).  Both callbacks are
invoked with optional chaining (`entering?.`, `exiting?.`) in the engine, so
each is optional here. -/
structure StateHandler (S T D E : Type) where
  entering : Option (Ctx S D → Ctx S D × List T × List E)
  exiting : Option (Ctx S D → Ctx S D × List T × List E)

/-- `StateConfiguration.ts`: the state identifier (`none` only for the
default pseudo-state, built with `<any>undefined`), the unguarded map, the
guarded lists (in registration order) and the optional handler. -/
structure StateConfiguration (S T D E : Type) where
  state : Option S
  unguarded : T → Option (TriggerConfiguration S T D E)
  guarded : T → List (TriggerConfiguration S T D E)
  handler : Option (StateHandler S T D E)

/-- The immutable-after-build part of `StateMachine.ts`: the state
configuration map, the default configuration, the initial state and which
listeners are installed. -/
structure Machine (S T D E : Type) where
  stateMap : S → Option (StateConfiguration S T D E)
  defaultState : Option (StateConfiguration S T D E)
  initialState : Option S
  hasInvalidListener : Bool
  hasTransitionListener : Bool

/-- The mutable part of `StateMachine.ts`: the `currentState` pointer, the
context, the trigger queue and the `isProcessingList` flag. -/
structure Rt (S T D E : Type) where
  currentState : Option (StateConfiguration S T D E)
  ctx : Ctx S D
  queue : List T
  isProcessingList : Bool

/-- Observable actions of one execution: events emitted by handlers/actions,
invocations of the transition listener (with the trigger, the exiting state
and the entering state) and invocations of the invalid-trigger listener. -/
inductive Obs (S T E : Type) where
  | emit (e : E)
  | transition (t : T) (src : Option S) (tgt : Option S)
  | invalid (s : Option S) (t : T)
deriving DecidableEq

/-- The errors the engine can throw, with the data interpolated into the
source's message strings. -/
inductive EngError (S T : Type) where
  | invalidTrigger (t : T) (s : Option S)
  | noHandler (s : Option S)
  | misconfiguredTarget
  | noInitialState
  | initialStateNotConfigured
  | outOfFuel
deriving DecidableEq

/-- The result of running a piece of the engine: the runtime state when the
piece returned or threw, the observation trace, the ghost traces of dequeued
and enqueued triggers (for the FIFO theorems), and the error if it threw. -/
structure Outcome (S T D E : Type) where
  rt : Rt S T D E
  events : List (Obs S T E)
  deqs : List T
  enqs : List T
  error : Option (EngError S T)

variable {S T D E : Type}

/-- Normal return. -/
def Outcome.pure (rt : Rt S T D E) : Outcome S T D E := ⟨rt, [], [], [], none⟩

/-- A throw: the runtime state at the throw site is kept. -/
def Outcome.fail (rt : Rt S T D E) (e : EngError S T) : Outcome S T D E :=
  ⟨rt, [], [], [], some e⟩

/-- Sequencing with exception propagation (`await a; await b`). -/
def Outcome.andThen (r : Outcome S T D E) (k : Rt S T D E → Outcome S T D E) :
    Outcome S T D E :=
  match r.error with
  | some _ => r
  | none =>
    let r2 := k r.rt
    ⟨r2.rt, r.events ++ r2.events, r.deqs ++ r2.deqs, r.enqs ++ r2.enqs, r2.error⟩

/-- Evaluation of `state._guard!(this._context)` on an entry of a guarded
list.  The non-null assertion holds for every entry the builder
(`handleGuarded`) produces; an absent guard is unreachable there. -/
def guardHolds (tc : TriggerConfiguration S T D E) (c : Ctx S D) : Bool :=
  match tc.guard with
  | some g => g c
  | none => false

/-- `StateMachine.matchTrigger` (part_002 lines 44-52): the unguarded map of
the given (possibly absent) state configuration first, else the first entry
of its guarded list whose guard evaluates true against the context. -/
def matchTrigger (sc? : Option (StateConfiguration S T D E)) (c : Ctx S D)
    (t : T) : Option (TriggerConfiguration S T D E) :=
  match sc?.bind (fun sc => sc.unguarded t) with
  | some tc => some tc
  | none =>
    ((sc?.map (fun sc => sc.guarded t)).getD []).find? (fun tc => guardHolds tc c)

/-- The two-stage resolution of `processTriggerList` (part_002 lines 61-66):
the current state's configuration first, then the default configuration. -/
def resolveTrigger (cfg : Machine S T D E) (cur : StateConfiguration S T D E)
    (c : Ctx S D) (t : T) : Option (TriggerConfiguration S T D E) :=
  match matchTrigger (some cur) c t with
  | some tc => some tc
  | none => matchTrigger cfg.defaultState c t

/-- The four-step precedence algorithm exactly as the specification words it:
current state's unguarded map; else first matching guard of the current
state's guarded list in registration order; else the same two steps on the
default configuration; else unresolved. -/
def resolveTriggerSpec (cfg : Machine S T D E) (cur : StateConfiguration S T D E)
    (c : Ctx S D) (t : T) : Option (TriggerConfiguration S T D E) :=
  match cur.unguarded t with
  | some tc => some tc
  | none =>
    match (cur.guarded t).find? (fun tc => guardHolds tc c) with
    | some tc => some tc
    | none =>
      match cfg.defaultState with
      | none => none
      | some d =>
        match d.unguarded t with
        | some tc => some tc
        | none => (d.guarded t).find? (fun tc => guardHolds tc c)

/-- Claim C1: for every fired trigger, the engine's resolution
(`matchTrigger` on the current state, then `matchTrigger` on the default
configuration) selects exactly the configuration described by the four-step
precedence algorithm of the specification: the current state's unguarded map
if it contains the trigger; otherwise the first registration-order entry of
the current state's guarded list whose guard evaluates true against the
context; otherwise the same two steps against the default configuration;
otherwise the trigger is unresolved. -/
theorem c1_resolution_matches_spec (cfg : Machine S T D E)
    (cur : StateConfiguration S T D E) (c : Ctx S D) (t : T) :
    resolveTrigger cfg cur c t = resolveTriggerSpec cfg cur c t := by
  unfold resolveTrigger resolveTriggerSpec matchTrigger
  cases hu : cur.unguarded t with
  | some tc => simp [Option.bind, hu]
  | none =>
    simp only [Option.bind, hu, Option.map, Option.getD]
    cases hg : (cur.guarded t).find? (fun tc => guardHolds tc c) with
    | some tc => simp [hg]
    | none =>
      simp only [hg]
      cases hd : cfg.defaultState with
      | none => simp
      | some d =>
        cases hdu : d.unguarded t with
        | some tc => simp [Option.bind, hdu]
        | none => simp [Option.bind, hdu]

/-- Application of an optional callback (`f?.(context)` in the source):
returns the runtime state with the updated context, the triggers the callback
fired and its emitted events (already wrapped as observations). -/
def runHandlerCall (f : Option (Ctx S D → Ctx S D × List T × List E))
    (rt : Rt S T D E) : Rt S T D E × List T × List (Obs S T E) :=
  match f with
  | none => (rt, [], [])
  | some h =>
    ({rt with ctx := (h rt.ctx).1}, (h rt.ctx).2.1,
      ((h rt.ctx).2.2).map Obs.emit)

/-- The engine's mutually recursive entry points, folded into one fuel-indexed
interpreter: `proc` is `processTriggerList`, `enter` is `enterState`,
`trig` is the bound `trigger` method, and `fireList` performs the sequence of
`trigger(..)` calls a callback made. -/
inductive Call (S T D E : Type) where
  | proc
  | enter (sc : StateConfiguration S T D E) (skip : Bool)
  | trig (t : T)
  | fireList (ts : List T)

/-- The engine interpreter, one branch per source branch of part_002:

* `trig t` (lines 94-101): push `t` at the tail; if a drain loop is active
  return immediately, else set the flag and drain.
* `proc` (lines 54-88): shift the head; stop (clearing the flag) when the
  queue was empty or there is no current state; resolve the trigger against
  the current state then the default configuration; on no match throw
  `invalidTrigger` or, when the invalid-trigger listener is installed, notify
  it and keep draining; on `ignore` keep draining; on `execute` run the
  action and keep draining; otherwise run the exit callback, notify the
  transition listener (when installed) with the trigger, the precomputed
  exiting state and `_targetStateConfiguration?._state`, enter the target and
  keep draining.
* `enter sc skip` (lines 33-42): set `currentState` and `context.state`,
  throw `noHandler` when the configuration has no handler, then (unless
  `skip`) run the entry callback.
* `fireList ts`: the calls `await trigger(t)` for each fired `t`, in order. -/
def run (cfg : Machine S T D E) : Nat → Rt S T D E → Call S T D E → Outcome S T D E
  | _, rt, .fireList [] => Outcome.pure rt
  | 0, rt, _ => Outcome.fail rt .outOfFuel
  | fuel + 1, rt, .trig t =>
    let rt1 := {rt with queue := rt.queue ++ [t]}
    if rt1.isProcessingList then ⟨rt1, [], [], [t], none⟩
    else
      let r := run cfg fuel {rt1 with isProcessingList := true} .proc
      ⟨r.rt, r.events, r.deqs, t :: r.enqs, r.error⟩
  | fuel + 1, rt, .fireList (t :: rest) =>
    (run cfg fuel rt (.trig t)).andThen fun rt2 => run cfg fuel rt2 (.fireList rest)
  | fuel + 1, rt, .enter sc skip =>
    let rt1 := {rt with currentState := some sc, ctx := {rt.ctx with state := sc.state}}
    match sc.handler with
    | none => Outcome.fail rt1 (.noHandler sc.state)
    | some h =>
      if skip then Outcome.pure rt1
      else
        let p := runHandlerCall h.entering rt1
        Outcome.andThen ⟨p.1, p.2.2, [], [], none⟩ fun rt2 =>
          run cfg fuel rt2 (.fireList p.2.1)
  | fuel + 1, rt, .proc =>
    match rt.queue with
    | [] => Outcome.pure {rt with isProcessingList := false}
    | t :: rest =>
      let rt1 := {rt with queue := rest}
      match rt1.currentState with
      | none => ⟨{rt1 with isProcessingList := false}, [], [t], [], none⟩
      | some cur =>
        match resolveTrigger cfg cur rt1.ctx t with
        | none =>
          if cfg.hasInvalidListener then
            Outcome.andThen ⟨rt1, [.invalid cur.state t], [t], [], none⟩ fun rt2 =>
              run cfg fuel rt2 .proc
          else ⟨rt1, [], [t], [], some (.invalidTrigger t cur.state)⟩
        | some tc =>
          if tc.isIgnored then
            Outcome.andThen ⟨rt1, [], [t], [], none⟩ fun rt2 => run cfg fuel rt2 .proc
          else
            match tc.func with
            | some f =>
              Outcome.andThen
                  ⟨{rt1 with ctx := (f rt1.ctx).1}, ((f rt1.ctx).2.2).map Obs.emit,
                    [t], [], none⟩ fun rt2 =>
                Outcome.andThen (run cfg fuel rt2 (.fireList (f rt1.ctx).2.1))
                  fun rt3 => run cfg fuel rt3 .proc
            | none =>
              let p := runHandlerCall (cur.handler.bind StateHandler.exiting) rt1
              let notif : List (Obs S T E) :=
                if cfg.hasTransitionListener then [.transition t cur.state tc.target]
                else []
              let body :=
                Outcome.andThen ⟨p.1, p.2.2, [t], [], none⟩ fun rt2 =>
                  Outcome.andThen (run cfg fuel rt2 (.fireList p.2.1)) fun rt3 =>
                    Outcome.andThen ⟨rt3, notif, [], [], none⟩ fun rt4 =>
                      match tc.target.bind cfg.stateMap with
                      | none => Outcome.fail rt4 .misconfiguredTarget
                      | some tsc =>
                        Outcome.andThen (run cfg fuel rt4 (.enter tsc false))
                          fun rt5 => run cfg fuel rt5 .proc
              body

/-- `StateMachine.processTriggerList`. -/
def processTriggerList (cfg : Machine S T D E) (fuel : Nat) (rt : Rt S T D E) :
    Outcome S T D E :=
  run cfg fuel rt .proc

/-- `StateMachine.enterState`. -/
def enterState (cfg : Machine S T D E) (fuel : Nat) (rt : Rt S T D E)
    (sc : StateConfiguration S T D E) (skip : Bool) : Outcome S T D E :=
  run cfg fuel rt (.enter sc skip)

/-- `StateMachine.trigger`. -/
def trigger (cfg : Machine S T D E) (fuel : Nat) (rt : Rt S T D E) (t : T) :
    Outcome S T D E :=
  run cfg fuel rt (.trig t)

/-- `StateMachine.getCurrentState`. -/
def getCurrentState (rt : Rt S T D E) : Option S :=
  match rt.currentState with
  | none => none
  | some sc => sc.state

/-- `StateMachine.start` (part_002 lines 149-168): resume from the context's
recorded state when present (skipping the entry callback exactly when that
state differs from the configured initial state), else start in the
configured initial state; fail when neither is available or the state has no
configuration. -/
def start [DecidableEq S] (cfg : Machine S T D E) (fuel : Nat)
    (rt : Rt S T D E) : Outcome S T D E :=
  let p : Bool × Option S :=
    match rt.ctx.state with
    | some cs => (decide (some cs ≠ cfg.initialState), some cs)
    | none => (false, cfg.initialState)
  match p.2 with
  | none => Outcome.fail rt .noInitialState
  | some i =>
    match cfg.stateMap i with
    | none => Outcome.fail rt .initialStateNotConfigured
    | some sc => run cfg fuel rt (.enter sc p.1)

/-! Generic lemmas about the interpreter. -/

/-- A `trigger(..)` call sequence on an empty list does nothing, at any
fuel. -/
theorem run_fireList_nil (cfg : Machine S T D E) (fuel : Nat) (rt : Rt S T D E) :
    run cfg fuel rt (.fireList []) = Outcome.pure rt := by
  cases fuel <;> rfl

/-- Callbacks never touch the trigger queue directly. -/
theorem runHandlerCall_queue (f : Option (Ctx S D → Ctx S D × List T × List E))
    (rt : Rt S T D E) : (runHandlerCall f rt).1.queue = rt.queue := by
  cases f <;> rfl

/-- Callbacks never touch the `isProcessingList` flag directly. -/
theorem runHandlerCall_flag (f : Option (Ctx S D → Ctx S D × List T × List E))
    (rt : Rt S T D E) : (runHandlerCall f rt).1.isProcessingList = rt.isProcessingList := by
  cases f <;> rfl

/-- The queue-conservation equation composes over sequencing. -/
theorem Outcome.andThen_fifo {q0 : List T} (r : Outcome S T D E)
    (k : Rt S T D E → Outcome S T D E)
    (h1 : r.deqs ++ r.rt.queue = q0 ++ r.enqs)
    (h2 : (k r.rt).deqs ++ (k r.rt).rt.queue = r.rt.queue ++ (k r.rt).enqs) :
    (r.andThen k).deqs ++ (r.andThen k).rt.queue = q0 ++ (r.andThen k).enqs := by
  unfold Outcome.andThen
  cases he : r.error with
  | some e => simpa using h1
  | none =>
    simp only
    rw [List.append_assoc, h2, ← List.append_assoc, h1, List.append_assoc]

/-- FIFO discipline of the engine: across any call, the triggers dequeued (in
order) followed by the final queue equal the initial queue followed by the
triggers enqueued (in order).  Dequeuing happens only at the head and
enqueueing only at the tail, so triggers are processed exactly in the order
`trigger()` was invoked. -/
theorem run_fifo (cfg : Machine S T D E) :
    ∀ (fuel : Nat) (rt : Rt S T D E) (call : Call S T D E),
      (run cfg fuel rt call).deqs ++ (run cfg fuel rt call).rt.queue =
        rt.queue ++ (run cfg fuel rt call).enqs := by
  intro fuel
  induction fuel with
  | zero =>
    intro rt call
    cases call with
    | fireList ts =>
      cases ts with
      | nil => simp [run, Outcome.pure]
      | cons t rest => simp [run, Outcome.fail]
    | proc => simp [run, Outcome.fail]
    | trig t => simp [run, Outcome.fail]
    | enter sc skip => simp [run, Outcome.fail]
  | succ fuel ih =>
    intro rt call
    cases call with
    | trig t =>
      by_cases hf : rt.isProcessingList
      · simp [run, hf]
      · simp only [run]
        simp only [Bool.not_eq_true] at hf
        simp [hf]
        have := ih {rt with queue := rt.queue ++ [t], isProcessingList := true} .proc
        simp only at this
        rw [this]
        simp
    | fireList ts =>
      cases ts with
      | nil => simp [run, Outcome.pure]
      | cons t rest =>
        simp only [run]
        exact Outcome.andThen_fifo _ _ (ih rt (.trig t)) (ih _ (.fireList rest))
    | enter sc skip =>
      simp only [run]
      cases hh : sc.handler with
      | none => simp [Outcome.fail]
      | some h =>
        by_cases hs : skip
        · simp [hs, Outcome.pure]
        · simp only [hs, if_false, Bool.false_eq_true]
          refine Outcome.andThen_fifo _ _ (by simp [runHandlerCall_queue]) ?_
          exact ih _ (.fireList _)
    | proc =>
      cases hq : rt.queue with
      | nil => simp [run, hq, Outcome.pure]
      | cons t rest =>
        simp only [run, hq]
        cases hc : rt.currentState with
        | none => simp
        | some cur =>
          simp only
          cases hres : resolveTrigger cfg cur rt.ctx t with
          | none =>
            simp only [hres]
            by_cases hil : cfg.hasInvalidListener
            · simp only [hil, if_true]
              refine Outcome.andThen_fifo _ _ (by simp) ?_
              exact ih _ .proc
            · simp only [Bool.not_eq_true] at hil
              simp [hil]
          | some tc =>
            simp only [hres]
            by_cases hig : tc.isIgnored
            · simp only [hig, if_true]
              refine Outcome.andThen_fifo _ _ (by simp) ?_
              exact ih _ .proc
            · simp only [Bool.not_eq_true] at hig
              simp only [hig, Bool.false_eq_true, if_false]
              cases hfn : tc.func with
              | some f =>
                simp only
                refine Outcome.andThen_fifo _ _ (by simp) ?_
                refine Outcome.andThen_fifo _ _ (ih _ (.fireList _)) ?_
                exact ih _ .proc
              | none =>
                simp only
                refine Outcome.andThen_fifo _ _ (by simp [runHandlerCall_queue]) ?_
                refine Outcome.andThen_fifo _ _ (ih _ (.fireList _)) ?_
                refine Outcome.andThen_fifo _ _ (by simp) ?_
                cases htb : tc.target.bind cfg.stateMap with
                | none => simp [Outcome.fail]
                | some tsc =>
                  simp only
                  refine Outcome.andThen_fifo _ _ (ih _ (.enter tsc false)) ?_
                  exact ih _ .proc

/-- Flag preservation composes over sequencing. -/
theorem Outcome.andThen_flag (r : Outcome S T D E) (k : Rt S T D E → Outcome S T D E)
    (h1 : r.rt.isProcessingList = true)
    (h2 : (k r.rt).rt.isProcessingList = true) :
    (r.andThen k).rt.isProcessingList = true := by
  unfold Outcome.andThen
  cases he : r.error with
  | some e => simpa using h1
  | none => simpa using h2

/-- The "flag cleared implies no error" property composes over sequencing. -/
theorem Outcome.andThen_flag_err (r : Outcome S T D E) (k : Rt S T D E → Outcome S T D E)
    (h1 : r.rt.isProcessingList = true)
    (h2 : (k r.rt).rt.isProcessingList = false → (k r.rt).error = none) :
    (r.andThen k).rt.isProcessingList = false → (r.andThen k).error = none := by
  unfold Outcome.andThen
  cases he : r.error with
  | some e =>
    intro hf
    simp only at hf
    rw [h1] at hf
    cases hf
  | none =>
    intro hf
    simp only at hf ⊢
    exact h2 hf

/-- During processing (`isProcessingList = true`), the flag is cleared only
by the drain loop's normal exits, which return no error; every non-`proc`
entry point keeps the flag set.  Consequently a drain loop that throws leaves
the flag set. -/
theorem run_flag_aux (cfg : Machine S T D E) :
    ∀ (fuel : Nat) (rt : Rt S T D E) (call : Call S T D E),
      rt.isProcessingList = true →
      match call with
      | .proc => (run cfg fuel rt call).rt.isProcessingList = false →
          (run cfg fuel rt call).error = none
      | _ => (run cfg fuel rt call).rt.isProcessingList = true := by
  intro fuel
  induction fuel with
  | zero =>
    intro rt call h
    cases call with
    | fireList ts =>
      cases ts with
      | nil => simpa [run, Outcome.pure] using h
      | cons t rest => simpa [run, Outcome.fail] using h
    | proc =>
      intro hf
      simp only [run, Outcome.fail] at hf
      rw [h] at hf
      cases hf
    | trig t => simpa [run, Outcome.fail] using h
    | enter sc skip => simpa [run, Outcome.fail] using h
  | succ fuel ih =>
    intro rt call h
    cases call with
    | trig t => simp [run, h]
    | fireList ts =>
      cases ts with
      | nil => simpa [run, Outcome.pure] using h
      | cons t rest =>
        simp only [run]
        exact Outcome.andThen_flag _ _ (ih rt (.trig t) h)
          (ih _ (.fireList rest) (ih rt (.trig t) h))
    | enter sc skip =>
      simp only [run]
      cases hh : sc.handler with
      | none => simpa [Outcome.fail] using h
      | some hd =>
        by_cases hs : skip
        · simpa [hs, Outcome.pure] using h
        · simp only [hs, Bool.false_eq_true, if_false]
          refine Outcome.andThen_flag _ _ ?_ (ih _ (.fireList _) ?_) <;>
            (rw [runHandlerCall_flag]; exact h)
    | proc =>
      cases hq : rt.queue with
      | nil =>
        intro hf
        simp [run, hq, Outcome.pure]
      | cons t rest =>
        simp only [run, hq]
        cases hc : rt.currentState with
        | none => intro hf; simp
        | some cur =>
          simp only
          cases hres : resolveTrigger cfg cur rt.ctx t with
          | none =>
            simp only [hres]
            by_cases hil : cfg.hasInvalidListener
            · simp only [hil, if_true]
              exact Outcome.andThen_flag_err _ _ h (ih _ .proc h)
            · simp only [Bool.not_eq_true] at hil
              simp only [hil, Bool.false_eq_true, if_false]
              intro hf
              simp [h] at hf
          | some tc =>
            simp only [hres]
            by_cases hig : tc.isIgnored
            · simp only [hig, if_true]
              exact Outcome.andThen_flag_err _ _ h (ih _ .proc h)
            · simp only [Bool.not_eq_true] at hig
              simp only [hig, Bool.false_eq_true, if_false]
              cases hfn : tc.func with
              | some f =>
                simp only
                refine Outcome.andThen_flag_err _ _ h ?_
                refine Outcome.andThen_flag_err _ _ (ih _ (.fireList _) h) ?_
                exact ih _ .proc (ih _ (.fireList _) h)
              | none =>
                simp only
                have hp : ∀ rt9 : Rt S T D E, rt9.isProcessingList = true →
                    (runHandlerCall (cur.handler.bind StateHandler.exiting)
                      rt9).1.isProcessingList = true := by
                  intro rt9 h9
                  rw [runHandlerCall_flag]
                  exact h9
                have hp1 := hp ⟨some cur, rt.ctx, rest, rt.isProcessingList⟩ h
                refine Outcome.andThen_flag_err _ _ hp1 ?_
                refine Outcome.andThen_flag_err _ _ (ih _ (.fireList _) hp1) ?_
                refine Outcome.andThen_flag_err _ _ (ih _ (.fireList _) hp1) ?_
                cases htb : tc.target.bind cfg.stateMap with
                | none =>
                  intro hf
                  simp only [Outcome.fail] at hf
                  rw [ih _ (.fireList _) hp1] at hf
                  cases hf
                | some tsc =>
                  simp only
                  refine Outcome.andThen_flag_err _ _
                    (ih _ (.enter tsc false) (ih _ (.fireList _) hp1)) ?_
                  exact ih _ .proc (ih _ (.enter tsc false) (ih _ (.fireList _) hp1))

/-! Concrete machines mirroring the repository's test suite
(`StateMachineTest.ts`), instantiated at `S = T = Nat`, `D = Unit`,
`E = String`.  Trigger `1` plays `TestTrigger.Success`. -/

/-- `.on(t).goesTo(s)`: an unguarded transition configuration. -/
def tcGoto (s : Nat) : TriggerConfiguration Nat Nat Unit String :=
  ⟨none, some s, none, false⟩

/-- `TestStateHandler(1, Success)`: log on entry, then fire `Success`; log on
exit. -/
def chainHandler1 : StateHandler Nat Nat Unit String :=
  ⟨some fun c => (c, [1], ["entering 1"]), some fun c => (c, [], ["exiting 1"])⟩

/-- `TestStateHandler(2, Success)`. -/
def chainHandler2 : StateHandler Nat Nat Unit String :=
  ⟨some fun c => (c, [1], ["entering 2"]), some fun c => (c, [], ["exiting 2"])⟩

/-- `TestStateHandler(3)`: logs but fires nothing. -/
def chainHandler3 : StateHandler Nat Nat Unit String :=
  ⟨some fun c => (c, [], ["entering 3"]), some fun c => (c, [], ["exiting 3"])⟩

/-- State 1 of the `should flow through all states` chain:
`on(Success).goesTo(State2)`. -/
def chainSc1 : StateConfiguration Nat Nat Unit String :=
  ⟨some 1, fun t => if t = 1 then some (tcGoto 2) else none, fun _ => [],
    some chainHandler1⟩

/-- State 2 of the chain: `on(Success).goesTo(State3)`. -/
def chainSc2 : StateConfiguration Nat Nat Unit String :=
  ⟨some 2, fun t => if t = 1 then some (tcGoto 3) else none, fun _ => [],
    some chainHandler2⟩

/-- State 3 of the chain: terminal. -/
def chainSc3 : StateConfiguration Nat Nat Unit String :=
  ⟨some 3, fun _ => none, fun _ => [], some chainHandler3⟩

/-- The linear chain machine state1→state2→state3, initial state 1, no
listeners, no default configuration. -/
def chainCfg : Machine Nat Nat Unit String :=
  ⟨fun s => if s = 1 then some chainSc1 else if s = 2 then some chainSc2 else
      if s = 3 then some chainSc3 else none,
    none, some 1, false, false⟩

/-- The chain machine with an invalid-trigger listener installed. -/
def chainCfgIL : Machine Nat Nat Unit String :=
  {chainCfg with hasInvalidListener := true}

/-- A freshly constructed engine: no current state, no recorded context
state, empty queue, no active drain loop. -/
def freshRt : Rt Nat Nat Unit String := ⟨none, ⟨none, ()⟩, [], false⟩

/-- Claim C2: for every trigger resolved to a Transition effect the engine
performs, in order: the current state's exit callback, the transition
listener notification (when registered) with the trigger, the source state
and the target state, the update of the current-state pointer and the
context's state field to the target, the target state's entry callback, and
then continues draining the queue; and the concrete chain
state1→state2→state3 with logging handlers produces the log
`[entering 1, exiting 1, entering 2, exiting 2, entering 3]`.  The equation
exhibits the order: the exit callback's events come first and it runs on the
undisturbed context, the notification carries the precomputed source and
target, and the entry callback receives the context already updated to the
target state. -/
theorem c2_transition_sequence (fuel : Nat) (cfg : Machine S T D E)
    (st : Option S) (ug : T → Option (TriggerConfiguration S T D E))
    (gd : T → List (TriggerConfiguration S T D E))
    (en? : Option (Ctx S D → Ctx S D × List T × List E))
    (exf : Ctx S D → Ctx S D × List T × List E)
    (c : Ctx S D) (t : T) (rest : List T) (flag : Bool)
    (go : Option (Ctx S D → Bool)) (tgtId : S)
    (tst : Option S) (tug : T → Option (TriggerConfiguration S T D E))
    (tgd : T → List (TriggerConfiguration S T D E))
    (enf : Ctx S D → Ctx S D × List T × List E)
    (ex? : Option (Ctx S D → Ctx S D × List T × List E))
    (ctx1 : Ctx S D) (exEvs : List E) (ctx2 : Ctx S D) (enEvs : List E)
    (hres : resolveTrigger cfg ⟨st, ug, gd, some ⟨en?, some exf⟩⟩ c t =
      some ⟨go, some tgtId, none, false⟩)
    (hmap : cfg.stateMap tgtId = some ⟨tst, tug, tgd, some ⟨some enf, ex?⟩⟩)
    (hexr : exf c = (ctx1, [], exEvs))
    (henr : enf ⟨tst, ctx1.data⟩ = (ctx2, [], enEvs)) :
    (processTriggerList cfg (fuel + 2)
        ⟨some ⟨st, ug, gd, some ⟨en?, some exf⟩⟩, c, t :: rest, flag⟩ =
      (let r := processTriggerList cfg (fuel + 1)
          ⟨some ⟨tst, tug, tgd, some ⟨some enf, ex?⟩⟩, ctx2, rest, flag⟩
       ⟨r.rt, exEvs.map Obs.emit
          ++ (if cfg.hasTransitionListener then [Obs.transition t st (some tgtId)] else [])
          ++ enEvs.map Obs.emit ++ r.events,
        t :: r.deqs, r.enqs, r.error⟩))
    ∧ (start chainCfg 30 freshRt).events =
        [.emit "entering 1", .emit "exiting 1", .emit "entering 2",
         .emit "exiting 2", .emit "entering 3"]
    ∧ (start chainCfg 30 freshRt).error = none
    ∧ getCurrentState (start chainCfg 30 freshRt).rt = some 3 := by
  refine ⟨?_, by decide, by decide, by rfl⟩
  unfold processTriggerList
  conv_lhs => rw [run]
  simp only [hres]
  simp only [runHandlerCall, Option.bind, hexr, Outcome.andThen]
  simp only [hmap, run_fireList_nil, Outcome.pure]
  conv_lhs => rw [run]
  simp only [runHandlerCall, henr, Outcome.andThen, run_fireList_nil, Outcome.pure]
  simp

/-- Witness for C2: the chain's state2→state3 transition instantiates every
hypothesis, and the chain run reaches state 3 with the expected log. -/
theorem c2_transition_sequence_witness :
    resolveTrigger chainCfg
        ⟨some 2, fun t => if t = 1 then some (tcGoto 3) else none, fun _ => [],
          some ⟨some fun c => (c, [1], ["entering 2"]),
            some fun c => (c, [], ["exiting 2"])⟩⟩
        ⟨some 2, ()⟩ 1 = some ⟨none, some 3, none, false⟩
    ∧ (start chainCfg 30 freshRt).events =
        [.emit "entering 1", .emit "exiting 1", .emit "entering 2",
         .emit "exiting 2", .emit "entering 3"] :=
  ⟨rfl,
    (c2_transition_sequence 1 chainCfg (some 2)
      (fun t => if t = 1 then some (tcGoto 3) else none) (fun _ => [])
      (some fun c => (c, [1], ["entering 2"])) (fun c => (c, [], ["exiting 2"]))
      ⟨some 2, ()⟩ 1 [] true none 3 (some 3) (fun _ => none) (fun _ => [])
      (fun c => (c, [], ["entering 3"])) (some fun c => (c, [], ["exiting 3"]))
      ⟨some 2, ()⟩ ["exiting 2"] ⟨some 3, ()⟩ ["entering 3"]
      rfl rfl rfl rfl).2.1⟩

/-- Claim C3: triggers are processed in strict FIFO order relative to the
order `trigger()` was invoked, including triggers fired from inside a
currently executing callback: every `trigger()` call appends to the tail of
the single queue and, when a drain loop is already active, returns
immediately after enqueueing with no observable action, no dequeue and no
error; and across every execution the dequeue order extends the arrival
order (dequeued triggers followed by the residual queue equal the initial
queue followed by the enqueued triggers, in order), so the single drain loop
processes one trigger at a time in arrival order. -/
theorem c3_fifo_single_flight (fuel : Nat) (cfg : Machine S T D E)
    (rt : Rt S T D E) (t : T) (h : rt.isProcessingList = true) :
    trigger cfg (fuel + 1) rt t =
      ⟨{rt with queue := rt.queue ++ [t]}, [], [], [t], none⟩
    ∧ ∀ (f2 : Nat) (rt2 : Rt S T D E) (call : Call S T D E),
        (run cfg f2 rt2 call).deqs ++ (run cfg f2 rt2 call).rt.queue =
          rt2.queue ++ (run cfg f2 rt2 call).enqs := by
  constructor
  · unfold trigger
    simp [run, h]
  · exact run_fifo cfg

/-- Witness for C3: with a drain loop active, `trigger` only appends. -/
theorem c3_fifo_single_flight_witness :
    (⟨some chainSc1, ⟨some 1, ()⟩, [4], true⟩ : Rt Nat Nat Unit String).isProcessingList = true
    ∧ trigger chainCfg 6 ⟨some chainSc1, ⟨some 1, ()⟩, [4], true⟩ 9 =
        ⟨⟨some chainSc1, ⟨some 1, ()⟩, [4, 9], true⟩, [], [], [9], none⟩ :=
  ⟨rfl, (c3_fifo_single_flight 5 chainCfg ⟨some chainSc1, ⟨some 1, ()⟩, [4], true⟩ 9 rfl).1⟩

/-- Claim C4: a dequeued trigger that resolves to no configuration on the
current state or the default configuration either throws an error naming
exactly the fired trigger and the current state (no invalid-trigger listener
installed, processing stops), or invokes the invalid-trigger listener with
the current state and the trigger, raises no error, and continues draining
the remaining queue. -/
theorem c4_unresolved_trigger_handling (fuel : Nat) (cfg : Machine S T D E)
    (cur : StateConfiguration S T D E) (c : Ctx S D) (t : T) (rest : List T)
    (flag : Bool) (hres : resolveTrigger cfg cur c t = none) :
    (cfg.hasInvalidListener = false →
      processTriggerList cfg (fuel + 1) ⟨some cur, c, t :: rest, flag⟩ =
        ⟨⟨some cur, c, rest, flag⟩, [], [t], [],
          some (.invalidTrigger t cur.state)⟩)
    ∧ (cfg.hasInvalidListener = true →
      processTriggerList cfg (fuel + 1) ⟨some cur, c, t :: rest, flag⟩ =
        (let r := processTriggerList cfg fuel ⟨some cur, c, rest, flag⟩
         ⟨r.rt, .invalid cur.state t :: r.events, t :: r.deqs, r.enqs, r.error⟩)) := by
  constructor
  · intro hil
    unfold processTriggerList
    conv_lhs => rw [run]
    simp [hres, hil]
  · intro hil
    unfold processTriggerList
    conv_lhs => rw [run]
    simp [hres, hil, Outcome.andThen]

/-- Witness for C4: trigger 9 is unresolved on the chain's state 1; without
a listener the drain throws naming trigger 9 and state 1, with a listener it
notifies and continues. -/
theorem c4_unresolved_trigger_handling_witness :
    resolveTrigger chainCfg chainSc1 ⟨some 1, ()⟩ 9 = none
    ∧ resolveTrigger chainCfgIL chainSc1 ⟨some 1, ()⟩ 9 = none
    ∧ processTriggerList chainCfg 5 ⟨some chainSc1, ⟨some 1, ()⟩, [9], false⟩ =
        ⟨⟨some chainSc1, ⟨some 1, ()⟩, [], false⟩, [], [9], [],
          some (.invalidTrigger 9 (some 1))⟩
    ∧ processTriggerList chainCfgIL 5 ⟨some chainSc1, ⟨some 1, ()⟩, [9], false⟩ =
        (let r := processTriggerList chainCfgIL 4 ⟨some chainSc1, ⟨some 1, ()⟩, [], false⟩
         ⟨r.rt, .invalid (some 1) 9 :: r.events, 9 :: r.deqs, r.enqs, r.error⟩) :=
  ⟨rfl, rfl,
    (c4_unresolved_trigger_handling 4 chainCfg chainSc1 ⟨some 1, ()⟩ 9 [] false rfl).1 rfl,
    (c4_unresolved_trigger_handling 4 chainCfgIL chainSc1 ⟨some 1, ()⟩ 9 [] false rfl).2 rfl⟩

/-- `.on(5).execute(..)` whose action fires triggers 9 then 7 (both
unresolved on the machine below). -/
def execFire : TriggerConfiguration Nat Nat Unit String :=
  ⟨none, none, some fun c => (c, [9, 7], []), false⟩

/-- A single state 1 accepting only trigger 5 (an `execute` effect); its
handler has no callbacks. -/
def c5Sc : StateConfiguration Nat Nat Unit String :=
  ⟨some 1, fun t => if t = 5 then some execFire else none, fun _ => [],
    some ⟨none, none⟩⟩

/-- Machine for the fatal-error experiments: state 1 only, no listeners. -/
def c5Cfg : Machine Nat Nat Unit String :=
  ⟨fun s => if s = 1 then some c5Sc else none, none, some 1, false, false⟩

/-- The machine parked in state 1 with an idle queue. -/
def c5Rt : Rt Nat Nat Unit String := ⟨some c5Sc, ⟨some 1, ()⟩, [], false⟩

/-- Counterexample to claim C5: firing trigger 5 runs the action, which
fires the unresolved trigger 9 and then trigger 7; the drain throws on 9
with trigger 7 still queued.  After the throw the `isProcessingList` flag is
still set and the queue still holds 7 — nothing was discarded or cleared —
and a subsequent external `trigger(8)` call returns immediately after
enqueueing (no dequeue, no event, no error): no fresh drain loop starts. -/
theorem c5_fatal_error_counterexample :
    (trigger c5Cfg 10 c5Rt 5).error = some (.invalidTrigger 9 (some 1))
    ∧ (trigger c5Cfg 10 c5Rt 5).rt.isProcessingList = true
    ∧ (trigger c5Cfg 10 c5Rt 5).rt.queue = [7]
    ∧ trigger c5Cfg 10 (trigger c5Cfg 10 c5Rt 5).rt 8 =
        ⟨⟨some c5Sc, ⟨some 1, ()⟩, [7, 8], true⟩, [], [], [8], none⟩ := by
  refine ⟨by decide, by decide, by decide, ?_⟩
  rfl

/-- Claim C5 amended: when the drain loop fails with a fatal
unresolved-trigger error, the active-loop flag is left set (and the
unconsumed queue entries are left queued, as the counterexample shows), so a
subsequent external `trigger()` call only enqueues and does not start a
fresh drain loop. -/
theorem c5_fatal_error_no_fresh_drain (fuel : Nat) (cfg : Machine S T D E)
    (rt : Rt S T D E) (t : T) (e : EngError S T)
    (h1 : rt.isProcessingList = false)
    (h2 : (trigger cfg (fuel + 1) rt t).error = some e) :
    (trigger cfg (fuel + 1) rt t).rt.isProcessingList = true
    ∧ ∀ (f2 : Nat) (rt2 : Rt S T D E) (u : T), rt2.isProcessingList = true →
        trigger cfg (f2 + 1) rt2 u =
          ⟨{rt2 with queue := rt2.queue ++ [u]}, [], [], [u], none⟩ := by
  constructor
  · unfold trigger at h2 ⊢
    simp only [run, h1, Bool.false_eq_true, if_false] at h2 ⊢
    by_cases hfl : (run cfg fuel
        {rt with queue := rt.queue ++ [t], isProcessingList := true}
        Call.proc).rt.isProcessingList = true
    · exact hfl
    · exfalso
      simp only [Bool.not_eq_true] at hfl
      have hok := run_flag_aux cfg fuel
        {rt with queue := rt.queue ++ [t], isProcessingList := true} .proc rfl hfl
      rw [hok] at h2
      cases h2
  · intro f2 rt2 u h
    unfold trigger
    simp [run, h]

/-- Witness for the amended C5: the concrete fatal run leaves the flag
set. -/
theorem c5_fatal_error_no_fresh_drain_witness :
    c5Rt.isProcessingList = false
    ∧ (trigger c5Cfg 10 c5Rt 5).error = some (.invalidTrigger 9 (some 1))
    ∧ (trigger c5Cfg 10 c5Rt 5).rt.isProcessingList = true :=
  ⟨rfl, by decide,
    (c5_fatal_error_no_fresh_drain 9 c5Cfg c5Rt 5
      (.invalidTrigger 9 (some 1)) rfl (by decide)).1⟩

/-- Counterexample to claim C6: the context records state 1 from a prior
run, the recorded state equals the configured initial state, and a
successful `start()` nevertheless invokes the handler's entry callback (the
first event is its "entering 1" log).  In the source this is
`skipEntering = this._context.state != this._initialState`, which is `false`
when the recorded state equals the initial state. -/
theorem c6_resume_counterexample :
    (⟨none, ⟨some 1, ()⟩, [], false⟩ : Rt Nat Nat Unit String).ctx.state = some 1
    ∧ (start chainCfg 30 ⟨none, ⟨some 1, ()⟩, [], false⟩).error = none
    ∧ (start chainCfg 30 ⟨none, ⟨some 1, ()⟩, [], false⟩).events.head? =
        some (.emit "entering 1") :=
  ⟨rfl, by decide, by decide⟩

/-- Claim C6 amended: a successful `start()` enters the context's recorded
state, and skips that state's entry callback exactly when the recorded state
differs from the configured initial state; when the recorded state equals
the initial state the entry callback is invoked (as it is when there is no
recorded state at all). -/
theorem c6_resume_skip_entry [DecidableEq S] (fuel : Nat)
    (cfg : Machine S T D E) (rt : Rt S T D E) (cs : S)
    (sc : StateConfiguration S T D E)
    (h1 : rt.ctx.state = some cs) (h2 : cfg.stateMap cs = some sc) :
    (cfg.initialState ≠ some cs →
      ∀ hd : StateHandler S T D E, sc.handler = some hd →
        start cfg (fuel + 1) rt = Outcome.pure
          {rt with currentState := some sc, ctx := {rt.ctx with state := sc.state}})
    ∧ (cfg.initialState = some cs →
      ∀ (hd : StateHandler S T D E) (enf : Ctx S D → Ctx S D × List T × List E)
        (c2 : Ctx S D) (evs : List E),
        sc.handler = some hd → hd.entering = some enf →
        enf {rt.ctx with state := sc.state} = (c2, [], evs) →
        start cfg (fuel + 1) rt =
          ⟨{rt with currentState := some sc, ctx := c2},
            evs.map Obs.emit, [], [], none⟩) := by
  constructor
  · intro hne hd hh
    unfold start
    simp only [h1]
    have hd1 : decide (some cs ≠ cfg.initialState) = true :=
      decide_eq_true (Ne.symm hne)
    simp only [hd1, h2]
    simp [run, hh, Outcome.pure]
  · intro heq hd enf c2 evs hh hen henr
    unfold start
    simp only [h1, heq]
    have hd0 : decide ((some cs : Option S) ≠ some cs) = false := by simp
    simp only [hd0, h2]
    simp only [run, hh, Bool.false_eq_true, if_false, runHandlerCall, hen,
      henr, Outcome.andThen, run_fireList_nil, Outcome.pure]
    simp

/-- Witness for the amended C6: resuming the chain machine in state 2 (which
differs from the initial state 1) enters state 2 without running its entry
callback. -/
theorem c6_resume_skip_entry_witness :
    (⟨none, ⟨some 2, ()⟩, [], false⟩ : Rt Nat Nat Unit String).ctx.state = some 2
    ∧ chainCfg.stateMap 2 = some chainSc2
    ∧ start chainCfg 10 ⟨none, ⟨some 2, ()⟩, [], false⟩ =
        Outcome.pure ⟨some chainSc2, ⟨some 2, ()⟩, [], false⟩ :=
  ⟨rfl, rfl,
    (c6_resume_skip_entry 9 chainCfg ⟨none, ⟨some 2, ()⟩, [], false⟩ 2 chainSc2
      rfl rfl).1 (by decide) chainHandler2 rfl⟩

/-- State 1 whose entry callback logs "started" and fires nothing. -/
def c7Sc : StateConfiguration Nat Nat Unit String :=
  ⟨some 1, fun _ => none, fun _ => [],
    some ⟨some fun c => (c, [], ["started"]), none⟩⟩

/-- A machine with a transition listener installed, used to observe whether
`start()` notifies it. -/
def c7Cfg : Machine Nat Nat Unit String :=
  ⟨fun s => if s = 1 then some c7Sc else none, none, some 1, false, true⟩

/-- Counterexample to claim C7: a transition listener is registered and
`start()` succeeds, yet the trace holds only the entry handler's own log —
no transition notification (with undefined source or otherwise) is ever
delivered by `start()` in the current engine. -/
theorem c7_start_notification_counterexample :
    c7Cfg.hasTransitionListener = true
    ∧ (start c7Cfg 10 freshRt).error = none
    ∧ (start c7Cfg 10 freshRt).events = [.emit "started"] :=
  ⟨rfl, by decide, by decide⟩

/-- Claim C7 amended: `start()` never notifies the transition listener; a
fresh successful start's trace consists exactly of the entry callback's own
events, whatever the value of `hasTransitionListener` (the listener is
notified only by transitions performed during trigger processing). -/
theorem c7_start_does_not_notify [DecidableEq S] (fuel : Nat)
    (cfg : Machine S T D E) (rt : Rt S T D E) (i : S)
    (sc : StateConfiguration S T D E) (hd : StateHandler S T D E)
    (enf : Ctx S D → Ctx S D × List T × List E) (c2 : Ctx S D) (evs : List E)
    (h0 : rt.ctx.state = none) (h1 : cfg.initialState = some i)
    (h2 : cfg.stateMap i = some sc) (h3 : sc.handler = some hd)
    (h4 : hd.entering = some enf)
    (h5 : enf {rt.ctx with state := sc.state} = (c2, [], evs)) :
    start cfg (fuel + 1) rt =
      ⟨{rt with currentState := some sc, ctx := c2},
        evs.map Obs.emit, [], [], none⟩ := by
  unfold start
  simp only [h0, h1, h2]
  simp only [run, h3, Bool.false_eq_true, if_false, runHandlerCall, h4, h5,
    Outcome.andThen, run_fireList_nil, Outcome.pure]
  simp

/-- Witness for the amended C7: the concrete machine with a listener. -/
theorem c7_start_does_not_notify_witness :
    freshRt.ctx.state = none
    ∧ c7Cfg.initialState = some 1
    ∧ start c7Cfg 10 freshRt =
        ⟨⟨some c7Sc, ⟨some 1, ()⟩, [], false⟩, [.emit "started"], [], [], none⟩ :=
  ⟨rfl, rfl,
    c7_start_does_not_notify 9 c7Cfg freshRt 1 c7Sc
      ⟨some fun c => (c, [], ["started"]), none⟩ (fun c => (c, [], ["started"]))
      ⟨some 1, ()⟩ ["started"] rfl rfl rfl rfl rfl rfl⟩

/-! The fluent effect-selection methods of `TriggerConfiguration.ts`
(part_000).  `goesTo` stores the target state identifier (the source stores
the `StateConfiguration` object obtained from `stateMachine.state(target)`,
which is the `stateMap` entry for that identifier); thrown configuration
errors become `Except.error` with the source's message. -/

/-- `goesTo(state)`: fails when code or ignore is already configured
(`throwOnFunc`, then `throwOnIgnore`), else records the target. -/
def TriggerConfiguration.goesTo (tc : TriggerConfiguration S T D E) (s : S) :
    Except String (TriggerConfiguration S T D E) :=
  if tc.func.isSome then
    .error "A trigger cannot both have a target state and code that should be executed"
  else if tc.isIgnored then
    .error "A trigger cannot both have a target state and be ignored"
  else .ok {tc with target := some s}

/-- `execute(func)`: fails when a target or ignore is already configured
(`throwOnTarget`, then `throwOnIgnore`), else records the action. -/
def TriggerConfiguration.execute (tc : TriggerConfiguration S T D E)
    (f : Ctx S D → Ctx S D × List T × List E) :
    Except String (TriggerConfiguration S T D E) :=
  if tc.target.isSome then
    .error "A trigger cannot both have a target state and code that should be executed"
  else if tc.isIgnored then
    .error "A trigger cannot both be ignored and have code that should be executed"
  else .ok {tc with func := some f}

/-- `ignore()`: fails when code or a target is already configured
(`throwOnFunc`, then `throwOnTarget`), else marks the trigger ignored. -/
def TriggerConfiguration.ignore (tc : TriggerConfiguration S T D E) :
    Except String (TriggerConfiguration S T D E) :=
  if tc.func.isSome then
    .error "A trigger cannot both be ignored and have code that should be executed"
  else if tc.target.isSome then
    .error "A trigger cannot both be ignored and have a target state"
  else .ok {tc with isIgnored := true}

/-- Counterexample to claim C8: a second invocation of `goesTo` on a
trigger configuration already configured with `goesTo` succeeds (replacing
the target) instead of failing — `goesTo` checks only for a configured
action and for ignore, never for an existing target. -/
theorem c8_repeat_effect_counterexample :
    (⟨none, none, none, false⟩ : TriggerConfiguration Nat Nat Unit String).goesTo 1 =
      Except.ok ⟨none, some 1, none, false⟩
    ∧ (⟨none, some 1, none, false⟩ : TriggerConfiguration Nat Nat Unit String).goesTo 2 =
      Except.ok ⟨none, some 2, none, false⟩ :=
  ⟨rfl, rfl⟩

/-- Claim C8 amended: on a single TriggerConfiguration, a second invocation
of a *different* effect kind among `goesTo`, `execute`, `ignore` fails with
the configuration error naming the two conflicting effects; invoking the
*same* method a second time succeeds — a second `goesTo` replaces the
target, a second `execute` replaces the action, and a second `ignore` is a
no-op. -/
theorem c8_effect_kind_conflicts (go : Option (Ctx S D → Bool)) (a b : S)
    (f1 f2 : Ctx S D → Ctx S D × List T × List E) :
    ((⟨go, none, none, false⟩ : TriggerConfiguration S T D E).goesTo a).bind
        (fun tc => tc.goesTo b) = .ok ⟨go, some b, none, false⟩
    ∧ ((⟨go, none, none, false⟩ : TriggerConfiguration S T D E).execute f1).bind
        (fun tc => tc.execute f2) = .ok ⟨go, none, some f2, false⟩
    ∧ ((⟨go, none, none, false⟩ : TriggerConfiguration S T D E).ignore).bind
        (fun tc => tc.ignore) = .ok ⟨go, none, none, true⟩
    ∧ ((⟨go, none, none, false⟩ : TriggerConfiguration S T D E).goesTo a).bind
        (fun tc => tc.execute f1) =
        .error "A trigger cannot both have a target state and code that should be executed"
    ∧ ((⟨go, none, none, false⟩ : TriggerConfiguration S T D E).goesTo a).bind
        (fun tc => tc.ignore) =
        .error "A trigger cannot both be ignored and have a target state"
    ∧ ((⟨go, none, none, false⟩ : TriggerConfiguration S T D E).execute f1).bind
        (fun tc => tc.goesTo a) =
        .error "A trigger cannot both have a target state and code that should be executed"
    ∧ ((⟨go, none, none, false⟩ : TriggerConfiguration S T D E).execute f1).bind
        (fun tc => tc.ignore) =
        .error "A trigger cannot both be ignored and have code that should be executed"
    ∧ ((⟨go, none, none, false⟩ : TriggerConfiguration S T D E).ignore).bind
        (fun tc => tc.goesTo a) =
        .error "A trigger cannot both have a target state and be ignored"
    ∧ ((⟨go, none, none, false⟩ : TriggerConfiguration S T D E).ignore).bind
        (fun tc => tc.execute f1) =
        .error "A trigger cannot both be ignored and have code that should be executed" :=
  ⟨rfl, rfl, rfl, rfl, rfl, rfl, rfl, rfl, rfl⟩

/-- State 1 with a quiet handler and `on(1).goesTo(2)`. -/
def c9Sc1 : StateConfiguration Nat Nat Unit String :=
  ⟨some 1, fun t => if t = 1 then some (tcGoto 2) else none, fun _ => [],
    some ⟨none, none⟩⟩

/-- State 2 configured (so `goesTo(2)` is resolvable) but with no handler
ever attached. -/
def c9Sc2 : StateConfiguration Nat Nat Unit String :=
  ⟨some 2, fun _ => none, fun _ => [], none⟩

/-- Machine whose transition target lacks a handler. -/
def c9Cfg : Machine Nat Nat Unit String :=
  ⟨fun s => if s = 1 then some c9Sc1 else if s = 2 then some c9Sc2 else none,
    none, some 1, false, false⟩

/-- Counterexample to claim C9: `start()` accepts this configuration (state
1 has a handler), and the missing-handler error for state 2 is first raised
later, during trigger processing, when the transition enters the
handler-less state 2. -/
theorem c9_missing_handler_counterexample :
    (start c9Cfg 10 freshRt).error = none
    ∧ (trigger c9Cfg 10 (start c9Cfg 10 freshRt).rt 1).error =
        some (.noHandler (some 2)) :=
  ⟨by decide, by decide⟩

/-- Claim C9 amended: a resolved state having no handler is not detected at
build or start time; the missing-handler error is raised exactly when the
handler-less state is entered, so a configuration accepted by `start()` can
still fail with a missing-handler error during trigger processing when a
transition enters that state. -/
theorem c9_missing_handler_detection (fuel : Nat) (cfg : Machine S T D E)
    (rt : Rt S T D E) (sc : StateConfiguration S T D E) (skip : Bool)
    (h : sc.handler = none) :
    enterState cfg (fuel + 1) rt sc skip =
      Outcome.fail
        ⟨some sc, {rt.ctx with state := sc.state}, rt.queue, rt.isProcessingList⟩
        (.noHandler sc.state)
    ∧ (start c9Cfg 10 freshRt).error = none
    ∧ (trigger c9Cfg 10 (start c9Cfg 10 freshRt).rt 1).error =
        some (.noHandler (some 2)) := by
  refine ⟨?_, by decide, by decide⟩
  unfold enterState
  simp [run, h, Outcome.fail]

/-- Witness for the amended C9: entering the handler-less state 2 throws. -/
theorem c9_missing_handler_detection_witness :
    c9Sc2.handler = none
    ∧ enterState c9Cfg 10 freshRt c9Sc2 false =
        Outcome.fail ⟨some c9Sc2, ⟨some 2, ()⟩, [], false⟩ (.noHandler (some 2)) :=
  ⟨rfl, (c9_missing_handler_detection 9 c9Cfg freshRt c9Sc2 false rfl).1⟩

/-- Claim C10: when entering a state fails because the target configuration
has no handler, the engine has already updated its current-state pointer and
the context's state field to that target before throwing: after the failure
`getCurrentState()` returns the handler-less target and the context records
it, with no rollback — both in general for `enterState` and concretely for
the transition-into-state-2 run on the handler-less machine. -/
theorem c10_no_rollback_on_missing_handler (fuel : Nat) (cfg : Machine S T D E)
    (rt : Rt S T D E) (sc : StateConfiguration S T D E) (skip : Bool)
    (h : sc.handler = none) :
    ((enterState cfg (fuel + 1) rt sc skip).error = some (.noHandler sc.state)
      ∧ getCurrentState (enterState cfg (fuel + 1) rt sc skip).rt = sc.state
      ∧ (enterState cfg (fuel + 1) rt sc skip).rt.ctx.state = sc.state)
    ∧ ((trigger c9Cfg 10 (start c9Cfg 10 freshRt).rt 1).error =
        some (.noHandler (some 2))
      ∧ getCurrentState (trigger c9Cfg 10 (start c9Cfg 10 freshRt).rt 1).rt = some 2
      ∧ (trigger c9Cfg 10 (start c9Cfg 10 freshRt).rt 1).rt.ctx.state = some 2) := by
  refine ⟨⟨?_, ?_, ?_⟩, by decide, by rfl, by rfl⟩
  · unfold enterState
    simp [run, h, Outcome.fail]
  · unfold enterState getCurrentState
    simp [run, h, Outcome.fail]
  · unfold enterState
    simp [run, h, Outcome.fail]

/-- Witness for C10. -/
theorem c10_no_rollback_on_missing_handler_witness :
    c9Sc2.handler = none
    ∧ getCurrentState (enterState c9Cfg 10 freshRt c9Sc2 false).rt = some 2
    ∧ (enterState c9Cfg 10 freshRt c9Sc2 false).rt.ctx.state = some 2 :=
  ⟨rfl,
    (c10_no_rollback_on_missing_handler 9 c9Cfg freshRt c9Sc2 false rfl).1.2.1,
    (c10_no_rollback_on_missing_handler 9 c9Cfg freshRt c9Sc2 false rfl).1.2.2⟩

/-- Witness for C1 at a concrete machine and trigger. -/
theorem c1_resolution_matches_spec_witness :
    resolveTrigger chainCfg chainSc1 ⟨some 1, ()⟩ 1 =
      resolveTriggerSpec chainCfg chainSc1 ⟨some 1, ()⟩ 1 :=
  c1_resolution_matches_spec chainCfg chainSc1 ⟨some 1, ()⟩ 1

/-- Witness for the amended C8 at concrete inputs: same-kind repetition
succeeds, cross-kind selection fails with the conflict error. -/
theorem c8_effect_kind_conflicts_witness :
    ((⟨none, none, none, false⟩ : TriggerConfiguration Nat Nat Unit String).goesTo 1).bind
        (fun tc => tc.goesTo 2) = .ok ⟨none, some 2, none, false⟩
    ∧ ((⟨none, none, none, false⟩ : TriggerConfiguration Nat Nat Unit String).goesTo 1).bind
        (fun tc => tc.execute (fun c => (c, [], []))) =
        .error "A trigger cannot both have a target state and code that should be executed" :=
  ⟨(c8_effect_kind_conflicts none 1 2 (fun c => (c, [], [])) (fun c => (c, [], []))).1,
    (c8_effect_kind_conflicts none 1 2 (fun c => (c, [], [])) (fun c => (c, [], []))).2.2.2.1⟩

end SolidFsm
